import Mathlib

/-!
Shallow embedding of the shopkeeper-station client logic.

The repository is a React/Supabase marketplace client. The claims concern
the pure client-side logic of five source files:
  * `src/pages/DashboardPage.tsx`, `src/pages/Index.tsx`,
    `src/pages/AdminPage.tsx` (listing views: product/photo fetch merge,
    delete handler, admin search filter, admin access gate),
  * `src/pages/AdminPage.tsx` also contains `ProductFormPage`
    (form submission: numeric parsing, sequential photo uploads,
    edit-mode photo reconciliation, photo removal),
  * `useRequireAuth` hook and the application route table.

Strings are Lean `String`s; nullable columns are `Option`; JavaScript
string truthiness (empty string is falsy) is modelled explicitly; numeric
values parsed with `parseFloat` are modelled as `Option ℚ`, where `none`
stands for the JavaScript values that reach storage as SQL NULL: both the
literal `null` the code writes for a falsy text field and `NaN`
(JSON-serialised as `null` by the client SDK before the request is sent).
-/

namespace Shopkeeper

/-- JavaScript truthiness of an optional string field: `undefined`/`null`
and the empty string are falsy, every other string is truthy. -/
def strTruthy : Option String → Bool
  | none => false
  | some s => s ≠ ""

/-- JavaScript `a.includes(b)` on strings: substring containment. -/
def strIncludes (s sub : String) : Bool :=
  decide (sub.data <:+: s.data)

/-- JavaScript `s.toLowerCase()`, modelled character-wise (case mapping on
the ASCII range, which is what the searched fields exercise). -/
def jsToLower (s : String) : String :=
  ⟨s.data.map Char.toLower⟩

/-- A row of the `products` table as fetched by the listing views
(`interface Product` in DashboardPage/Index/AdminPage): `name`,
`created_at`, `user_id` are non-null, the business fields are nullable. -/
structure Product where
  id : String
  name : String
  description : Option String
  category : Option String
  sku : Option String
  mrp : Option ℚ
  discount : Option ℚ
  expiry : Option String
  manufactured_by : Option String
  quantity : Option String
  return_policy : Option String
  created_at : String
  user_id : String
deriving Repr, DecidableEq

/-- A row of the `product_photos` table (`interface ProductPhoto` in the
listing views). The declared type has `product_id : string`, but the merge
code guards `if (photo.product_id)` against absent values, so the field is
modelled as nullable. -/
structure ProductPhoto where
  id : String
  photo_url : String
  product_id : Option String
deriving Repr, DecidableEq

/-- A product together with the photo list attached by the client-side
merge (`productsWithPhotos` in the three listing views; the spread
`{ ...product, photos: ... }` is modelled as a pair). -/
structure ProductWithPhotos where
  product : Product
  photos : List ProductPhoto
deriving Repr, DecidableEq

/-- Lookup in the `photosByProduct` record built by `fetchProducts`:
the `forEach` loop inserts each photo under its `product_id` key only when
that key is truthy, preserving order, so the bucket of `key` is exactly
the ordered sublist of photos whose truthy `product_id` equals `key`.
The lookup `photosByProduct[product.id] || []` yields `[]` when the bucket
is missing. -/
def groupLookup (photosData : List ProductPhoto) (key : String) : List ProductPhoto :=
  photosData.filter (fun f => strTruthy f.product_id && decide (f.product_id = some key))

/-- The client-side merge in `fetchProducts` (DashboardPage lines 59-76,
Index lines 57-74, AdminPage lines 94-111): map every fetched product to
itself paired with `photosByProduct[product.id] || []`. -/
def fetchMerge (productsData : List Product) (photosData : List ProductPhoto) :
    List ProductWithPhotos :=
  productsData.map (fun p => ⟨p, groupLookup photosData p.id⟩)

/-- The per-product search predicate of the admin page
(`filteredProducts`, AdminPage lines 147-151):
`product.name.toLowerCase().includes(searchTerm.toLowerCase()) ||
 (product.category && product.category.toLowerCase().includes(...)) ||
 (product.description && product.description.toLowerCase().includes(...))`. -/
def matchesSearch (searchTerm : String) (p : Product) : Bool :=
  strIncludes (jsToLower p.name) (jsToLower searchTerm)
  || (strTruthy p.category
      && strIncludes (jsToLower (p.category.getD "")) (jsToLower searchTerm))
  || (strTruthy p.description
      && strIncludes (jsToLower (p.description.getD "")) (jsToLower searchTerm))

/-- The admin search filter (`filteredProducts`, AdminPage lines 147-151):
`products.filter(product => ...)` over the fetched set. -/
def filteredProducts (searchTerm : String) (products : List Product) : List Product :=
  products.filter (matchesSearch searchTerm)

/-- The specification-level match predicate: the name, the category or the
description contains the query case-insensitively (lower-casing both sides,
as the code does). Stated independently of the filtering code so that the
filter can be compared against it. -/
def specMatches (q : String) (p : Product) : Prop :=
  (jsToLower q).data <:+: (jsToLower p.name).data
  ∨ (∃ c, p.category = some c ∧ (jsToLower q).data <:+: (jsToLower c).data)
  ∨ (∃ d, p.description = some d ∧ (jsToLower q).data <:+: (jsToLower d).data)

/-- The delete handler of the dashboard and admin listing views
(DashboardPage lines 89-103, AdminPage lines 124-140): the backend delete
request is issued first; only when it reports success is
`setProducts(products.filter(product => product.id !== id))` executed,
otherwise the local list is left untouched. `requestSucceeds` is the
outcome reported by the backend. -/
def handleDelete (requestSucceeds : Bool) (idToDelete : String) (products : List Product) :
    List Product :=
  if requestSucceeds then products.filter (fun p => decide (p.id ≠ idToDelete)) else products

/-- The session state observed by the route guard: the optional user and
the loading flag of the auth context. For the guard only the presence of a
user matters, so the user is carried as an optional identifier. -/
structure SessionState where
  user : Option String
  loading : Bool
deriving Repr, DecidableEq

/-- The redirect condition of the `useRequireAuth` hook (part_000 lines
5-16): the effect runs `navigate(redirectTo)` exactly when
`!loading && !user`. -/
def shouldRedirect (s : SessionState) : Bool :=
  !s.loading && s.user.isNone

/-- What the guard shows for a given session state. -/
inductive GuardView where
  | placeholder
  | wrapped
  | redirect
deriving Repr, DecidableEq

/-- Modelled from the spec: the `AuthGuard` component that wraps the
guarded routes is imported in the route table but its source file is not
in the repository snapshot; section 4.2 of the specification describes it:
if loading is true, render nothing (or a neutral placeholder) and wait;
once loading resolves, if no user is present, redirect to the login route;
otherwise render the wrapped view. -/
def guardRender (s : SessionState) : GuardView :=
  if s.loading then GuardView.placeholder
  else match s.user with
    | some _ => GuardView.wrapped
    | none => GuardView.redirect

/-- Number of redirects the guard issues over a run of successive session
states. The effect re-evaluates at each state change; issuing a redirect
navigates away and unmounts the guard, so the run stops at the first state
whose condition fires. -/
def redirectCount : List SessionState → Nat
  | [] => 0
  | s :: rest => if shouldRedirect s then 1 else redirectCount rest

/-- An authenticated user as exposed by the auth service: the email field
is optional (the code reads it with `user.email?.`). -/
structure AuthUser where
  id : String
  email : Option String
deriving Repr, DecidableEq

/-- The admin email test `user.email?.includes("admin")` used by the admin
page: an absent email is falsy, otherwise substring containment. -/
def emailIncludesAdmin (email : Option String) : Bool :=
  match email with
  | none => false
  | some e => strIncludes e "admin"

/-- The admin page access gate (AdminPage lines 68-74 and 119-121): the
redirect effect sends a signed-in user away when
`!user.email?.includes("admin")`, and the fetch runs only when
`user.email?.includes("admin")`; access is granted exactly when the test
holds. -/
def adminPageGrantsAccess (u : AuthUser) : Bool :=
  emailIncludesAdmin u.email

/-- The redirect effect of the admin page (AdminPage lines 68-74): a
signed-in user whose email fails the admin test is sent away to `/`. -/
def adminPageRedirectsAway (u : AuthUser) : Bool :=
  !(emailIncludesAdmin u.email)

/-- Where the admin auth page sends an already signed-in user (part_001
lines 46-53): to `/admin` when the email test holds, to `/dashboard`
otherwise. -/
inductive AuthRedirect where
  | toAdmin
  | toDashboard
deriving Repr, DecidableEq

/-- The signed-in redirect of the admin auth page (part_001 lines 46-53). -/
def adminAuthRedirect (u : AuthUser) : AuthRedirect :=
  if emailIncludesAdmin u.email then AuthRedirect.toAdmin else AuthRedirect.toDashboard

/-- Numeric value of a digit run, most significant first. -/
def digitsVal (l : List Char) : Nat :=
  l.foldl (fun a c => 10 * a + (c.toNat - 48)) 0

/-- JavaScript `parseFloat` on the decimal grammar: skip leading
whitespace, optional sign, integer digits, optional fraction, optional
exponent, reading the longest valid numeric prefix and ignoring trailing
garbage; the result is `none` when no digit is found (`NaN`). Values are
exact rationals: IEEE rounding and the `Infinity` literals are outside the
inputs the number-typed form fields can produce and are abstracted away. -/
def jsParseFloat (s : String) : Option ℚ :=
  let l := s.data.dropWhile (fun c => c = ' ' || c = '\t' || c = '\n' || c = '\r')
  let signAndRest : ℚ × List Char :=
    match l with
    | '+' :: rest => (1, rest)
    | '-' :: rest => (-1, rest)
    | _ => (1, l)
  let sign := signAndRest.1
  let l1 := signAndRest.2
  let intPart := l1.takeWhile Char.isDigit
  let rest1 := l1.dropWhile Char.isDigit
  let fracAndRest : List Char × List Char :=
    match rest1 with
    | '.' :: r => (r.takeWhile Char.isDigit, r.dropWhile Char.isDigit)
    | _ => ([], rest1)
  let fracPart := fracAndRest.1
  let rest2 := fracAndRest.2
  if intPart.isEmpty && fracPart.isEmpty then none
  else
    let mantissa : ℚ :=
      (digitsVal intPart : ℚ) + (digitsVal fracPart : ℚ) / ((10 : ℚ) ^ fracPart.length)
    let value : ℚ :=
      match rest2 with
      | c :: r =>
        if c = 'e' || c = 'E' then
          let esignAndRest : ℤ × List Char :=
            match r with
            | '+' :: rr => (1, rr)
            | '-' :: rr => (-1, rr)
            | _ => (1, r)
          let eDigits := esignAndRest.2.takeWhile Char.isDigit
          if eDigits.isEmpty then mantissa
          else mantissa * (10 : ℚ) ^ (esignAndRest.1 * (digitsVal eDigits : ℤ))
        else mantissa
      | [] => mantissa
    some (sign * value)

/-- The form state of `ProductFormPage` (`interface Product` there): every
field is a text value bound to an input. -/
structure ProductForm where
  name : String
  description : String
  category : String
  sku : String
  mrp : String
  discount : String
  expiry : String
  manufactured_by : String
  quantity : String
  return_policy : String
deriving Repr, DecidableEq

/-- The numeric field transformation in `handleSubmit`
(`mrp: product.mrp ? parseFloat(product.mrp) : null`): a falsy (empty)
text field is stored as `null`; otherwise the `parseFloat` result is sent,
whose `NaN` case reaches the request body as `null` under JSON
serialisation, so `none` covers both absent outcomes. -/
def parsedNumeric (s : String) : Option ℚ :=
  if s = "" then none else jsParseFloat s

/-- The record written to the `products` table by `handleSubmit`
(AdminPage/ProductFormPage lines 514-519): the form fields spread
unchanged, `user_id` added, and `mrp`/`discount` replaced by their parsed
nullable values. -/
structure ProductData where
  name : String
  description : String
  category : String
  sku : String
  mrp : Option ℚ
  discount : Option ℚ
  expiry : String
  manufactured_by : String
  quantity : String
  return_policy : String
  user_id : String
deriving Repr, DecidableEq

/-- Construction of `productData` in `handleSubmit` (lines 514-519). -/
def buildProductData (userId : String) (f : ProductForm) : ProductData :=
  { name := f.name
    description := f.description
    category := f.category
    sku := f.sku
    mrp := parsedNumeric f.mrp
    discount := parsedNumeric f.discount
    expiry := f.expiry
    manufactured_by := f.manufactured_by
    quantity := f.quantity
    return_policy := f.return_policy
    user_id := userId }

/-- The client-side gate on submission: `handleSubmit` itself requires a
signed-in user, and the name input carries the `required` attribute, which
blocks a submission with an empty name before `handleSubmit` runs; no
other field is constrained at the client level. -/
def clientAccepts (user : Option AuthUser) (f : ProductForm) : Bool :=
  user.isSome && f.name ≠ ""

/-- An entry of the `photos` form state of `ProductFormPage`
(`interface ProductPhoto` there): optional record id, preview url, `isNew`
flag, and whether a `File` object is attached. -/
structure FormPhoto where
  id : Option String
  url : String
  isNew : Bool
  hasFile : Bool
deriving Repr, DecidableEq

/-- The `removePhoto` handler (lines 490-501): `splice(index, 1)` on a
copy of the photo list (the revocation of a blob preview url is a browser
side effect with no bearing on the list). -/
def removePhoto (index : Nat) (photos : List FormPhoto) : List FormPhoto :=
  photos.eraseIdx index

/-- The retained photo ids computed in edit mode (lines 578-580):
`photos.filter(photo => !photo.isNew && photo.id).map(photo => photo.id)`,
keeping non-new photos with a truthy id. -/
def currentPhotoIds (photos : List FormPhoto) : List String :=
  (photos.filter (fun p => !p.isNew && strTruthy p.id)).filterMap (fun p => p.id)

/-- The edit-mode reconciliation delete (lines 582-589): delete from
`product_photos` the rows with `product_id = productId` whose id is not in
the retained list, the empty retained list being replaced by the sentinel
list `["-1"]` (the source writes the literal string (-1)). The result is
the table after the
delete. -/
def reconcileDelete (productId : String) (currentIds : List String)
    (table : List ProductPhoto) : List ProductPhoto :=
  let keep := if currentIds.isEmpty then ["-1"] else currentIds
  table.filter (fun r => !(decide (r.product_id = some productId) && !(keep.contains r.id)))

/-- Outcome of the upload loop in `handleSubmit` (lines 543-574): the
photos committed (uploaded and recorded, in order), the number of uploads
attempted, and whether the loop ran to completion. -/
structure UploadOutcome where
  committed : List FormPhoto
  attempted : Nat
  completed : Bool
deriving Repr, DecidableEq

/-- The sequential upload loop (`for (const photo of newPhotos)`, lines
547-574): uploads are attempted one at a time in list order; a failure
throws, aborting the loop, so nothing after the failed upload is
attempted. `uploadOk k` is the backend outcome of the upload with index
`k` in the new-photo list. -/
def processUploads (uploadOk : Nat → Bool) : Nat → List FormPhoto → UploadOutcome
  | _, [] => ⟨[], 0, true⟩
  | k, p :: rest =>
    if uploadOk k then
      let o := processUploads uploadOk (k + 1) rest
      ⟨p :: o.committed, o.attempted + 1, o.completed⟩
    else ⟨[], 1, false⟩

/-- State after one submission attempt as far as the backend is concerned:
whether the product write committed, which new photos were committed, how
many uploads were attempted, and whether the whole submission succeeded. -/
structure SubmitState where
  productSaved : Bool
  committedPhotos : List FormPhoto
  uploadsAttempted : Nat
  succeeded : Bool
deriving Repr, DecidableEq

/-- The new photos selected for upload in `handleSubmit` (line 545):
`photos.filter(photo => photo.isNew && photo.file)`. -/
def newPhotosOf (photos : List FormPhoto) : List FormPhoto :=
  photos.filter (fun p => p.isNew && p.hasFile)

/-- The commit structure of `handleSubmit` (lines 514-598): the product
insert/update runs first; if it throws nothing else runs; otherwise the
new photos are uploaded sequentially, and a throw mid-loop leaves the
product write and the already committed uploads in place (no rollback). -/
def submitProduct (productWriteOk : Bool) (uploadOk : Nat → Bool)
    (photos : List FormPhoto) : SubmitState :=
  if productWriteOk then
    let o := processUploads uploadOk 0 (newPhotosOf photos)
    ⟨true, o.committed, o.attempted, o.completed⟩
  else ⟨false, [], 0, false⟩

/-! ## Helper lemmas -/

theorem contains_iff_mem (l : List String) (a : String) : l.contains a = true ↔ a ∈ l := by
  rw [List.contains_eq_any_beq]
  simp

theorem truthyClause_iff (q c : String) (hq : (jsToLower q).data ≠ []) :
    ((c ≠ "") ∧ (jsToLower q).data <:+: (jsToLower c).data) ↔
      (jsToLower q).data <:+: (jsToLower c).data := by
  constructor
  · exact And.right
  · intro h
    refine ⟨?_, h⟩
    rintro rfl
    exact hq (List.infix_nil.mp h)

theorem matchesSearch_iff (q : String) (p : Product) :
    matchesSearch q p = true ↔ specMatches q p := by
  by_cases hq : (jsToLower q).data = []
  · have hinf : (jsToLower q).data <:+: (jsToLower p.name).data := by
      rw [hq]
      exact List.nil_infix
    constructor
    · intro _
      exact Or.inl hinf
    · intro _
      simp [matchesSearch, strIncludes, hinf]
  · rcases hc : p.category with _ | c <;> rcases hd : p.description with _ | d <;>
      simp [matchesSearch, specMatches, strIncludes, strTruthy, hc, hd, Bool.or_eq_true,
        Bool.and_eq_true, decide_eq_true_iff, truthyClause_iff _ _ hq, or_assoc]

/-! ## Concrete records used to instantiate the theorems -/

/-- A fetched product with an empty (falsy) identifier. -/
def cexProduct : Product :=
  { id := "", name := "Ghost", description := none, category := none, sku := none,
    mrp := none, discount := none, expiry := none, manufactured_by := none,
    quantity := none, return_policy := none, created_at := "2024-01-01", user_id := "u1" }

/-- A fetched photo whose `product_id` is the empty string: equal to the
id of `cexProduct`, yet falsy. -/
def cexPhoto : ProductPhoto :=
  { id := "ph1", photo_url := "u/1.png", product_id := some "" }

def demoProductA : Product :=
  { id := "prodA", name := "Lamp", description := some "warm light",
    category := some "Decor", sku := none, mrp := some 499, discount := none,
    expiry := none, manufactured_by := none, quantity := none, return_policy := none,
    created_at := "2024-05-02", user_id := "u1" }

def demoProductB : Product :=
  { id := "prodB", name := "Chair", description := none, category := none, sku := none,
    mrp := none, discount := none, expiry := none, manufactured_by := none,
    quantity := none, return_policy := none, created_at := "2024-05-01", user_id := "u2" }

def demoPhotoA1 : ProductPhoto :=
  { id := "phA1", photo_url := "u/a1.png", product_id := some "prodA" }

def demoPhotoA2 : ProductPhoto :=
  { id := "phA2", photo_url := "u/a2.png", product_id := some "prodA" }

/-- A fetched photo with an absent `product_id`. -/
def demoPhotoOrphan : ProductPhoto :=
  { id := "ph0", photo_url := "u/o.png", product_id := none }

def demoProducts : List Product := [demoProductA, demoProductB]

def demoPhotos : List ProductPhoto := [demoPhotoA1, demoPhotoOrphan, demoPhotoA2]

/-- A mixed fetched product list: one product with a truthy id and one
with the empty (falsy) id. -/
def mixedProducts : List Product := [demoProductA, cexProduct]

/-- A fetched photo list containing matches for the truthy-id product, an
orphan with absent `product_id`, and a photo whose `product_id` is the
empty string. -/
def mixedPhotos : List ProductPhoto := [demoPhotoA1, demoPhotoOrphan, cexPhoto, demoPhotoA2]

/-- The merge property exactly as claimed: every product of the merged
view carries exactly the fetched photos whose `product_id` equals its id. -/
def mergeAsClaimed : Prop :=
  ∀ (P : List Product) (F : List ProductPhoto),
    ∀ pw ∈ fetchMerge P F,
      pw.photos = F.filter (fun f => decide (f.product_id = some pw.product.id))

/-! ## Claim theorems -/

/-- C1 counterexample: the claim fails for a product whose id is the empty
string paired with a photo whose `product_id` is the empty string: the two
identifiers are equal, but the truthiness guard in the grouping pass drops
the photo, so the product gets an empty photo list instead of the matching
photo. -/
theorem merge_claim_counterexample : ¬ mergeAsClaimed := by
  intro h
  have hmem : (⟨cexProduct, groupLookup [cexPhoto] cexProduct.id⟩ : ProductWithPhotos)
      ∈ fetchMerge [cexProduct] [cexPhoto] := by decide
  have heq := h [cexProduct] [cexPhoto] _ hmem
  revert heq
  decide

/-- C1 amended: for every fetched product list and photo list, the merged
view keeps every product (each with a photo list that is always present);
every merged product whose id is truthy (non-empty) carries exactly the
fetched photos whose `product_id` equals its id; and a merged product
whose id is the empty string gets the empty photo list, even when a photo
carries an equal (empty) `product_id`, because the grouping pass keeps
only photos with truthy `product_id`. -/
theorem merge_amended (P : List Product) (F : List ProductPhoto) :
    (fetchMerge P F).map (fun pw => pw.product) = P ∧
    (∀ pw ∈ fetchMerge P F, pw.product.id ≠ "" →
      pw.photos = F.filter (fun f => decide (f.product_id = some pw.product.id))) ∧
    (∀ pw ∈ fetchMerge P F, pw.product.id = "" → pw.photos = []) := by
  refine ⟨?_, ?_, ?_⟩
  · rw [fetchMerge, List.map_map]
    exact List.map_id P
  · intro pw hpw hid
    rcases List.mem_map.mp hpw with ⟨p, _, rfl⟩
    show groupLookup F p.id = _
    unfold groupLookup
    apply List.filter_congr
    intro f _
    by_cases hf : f.product_id = some p.id
    · simp [hf, strTruthy, hid]
    · simp [hf]
  · intro pw hpw hid
    rcases List.mem_map.mp hpw with ⟨p, _, rfl⟩
    show groupLookup F p.id = []
    rw [hid]
    unfold groupLookup
    apply List.filter_eq_nil_iff.mpr
    intro f _
    by_cases hf : f.product_id = some ""
    · simp [hf, strTruthy]
    · simp [hf]

/-- C1 witness: the amended theorem applied to a mixed fetch of a
truthy-id product and an empty-id product: the first gets exactly its
matching photos, the second gets the empty list although a photo with
empty `product_id` is present. -/
theorem merge_amended_witness :
    (fetchMerge mixedProducts mixedPhotos).map (fun pw => pw.product) = mixedProducts ∧
    (⟨demoProductA, groupLookup mixedPhotos demoProductA.id⟩ : ProductWithPhotos).photos =
      mixedPhotos.filter (fun f => decide (f.product_id = some demoProductA.id)) ∧
    (⟨cexProduct, groupLookup mixedPhotos cexProduct.id⟩ : ProductWithPhotos).photos = [] :=
  ⟨(merge_amended mixedProducts mixedPhotos).1,
   (merge_amended mixedProducts mixedPhotos).2.1
     ⟨demoProductA, groupLookup mixedPhotos demoProductA.id⟩ (by decide) (by decide),
   (merge_amended mixedProducts mixedPhotos).2.2
     ⟨cexProduct, groupLookup mixedPhotos cexProduct.id⟩ (by decide) (by decide)⟩

/-- C9: a fetched photo whose `product_id` is absent or falsy is attached
to no product by the merge, which still produces one merged entry per
fetched product (the merge itself is total). -/
theorem merge_omits_falsy (P : List Product) (F : List ProductPhoto)
    (f : ProductPhoto) (hf : strTruthy f.product_id = false) :
    (fetchMerge P F).length = P.length ∧
    ∀ pw ∈ fetchMerge P F, f ∉ pw.photos := by
  constructor
  · simp [fetchMerge]
  · intro pw hpw hmem
    rcases List.mem_map.mp hpw with ⟨p, _, rfl⟩
    simp only [groupLookup, List.mem_filter, Bool.and_eq_true] at hmem
    rw [hf] at hmem
    exact Bool.false_ne_true hmem.2.1

/-- C9 witness: the photo with absent `product_id` is not attached to the
first merged product of the concrete fetch. -/
theorem merge_omits_falsy_witness :
    (fetchMerge demoProducts demoPhotos).length = demoProducts.length ∧
    demoPhotoOrphan ∉
      (⟨demoProductA, groupLookup demoPhotos demoProductA.id⟩ : ProductWithPhotos).photos :=
  ⟨(merge_omits_falsy demoProducts demoPhotos demoPhotoOrphan (by decide)).1,
   (merge_omits_falsy demoProducts demoPhotos demoPhotoOrphan (by decide)).2
     ⟨demoProductA, groupLookup demoPhotos demoProductA.id⟩ (by decide)⟩

/-- C2: for every fetched product list and query string `q`, the admin
filter returns exactly the subset of products whose name, category, or
description contains `q` case-insensitively; the filter is idempotent, and
the empty query yields the full fetched set. -/
theorem admin_filter_exact (q : String) (products : List Product) :
    (∀ p, p ∈ filteredProducts q products ↔ p ∈ products ∧ specMatches q p) ∧
    filteredProducts q (filteredProducts q products) = filteredProducts q products ∧
    filteredProducts "" products = products := by
  refine ⟨?_, ?_, ?_⟩
  · intro p
    rw [filteredProducts, List.mem_filter, matchesSearch_iff]
  · unfold filteredProducts
    simp [List.filter_filter]
  · unfold filteredProducts
    apply List.filter_eq_self.mpr
    intro p _
    rw [matchesSearch_iff]
    exact Or.inl List.nil_infix

/-- C3: on confirmed backend success the delete handler removes exactly
the product with the given id, the remaining products keeping their
original relative order (the result is a sublist of the original list);
on failure the local list is unchanged. -/
theorem delete_exact (idToDelete : String) (products : List Product) :
    (∀ p, p ∈ handleDelete true idToDelete products ↔ p ∈ products ∧ p.id ≠ idToDelete) ∧
    (handleDelete true idToDelete products).Sublist products ∧
    handleDelete false idToDelete products = products := by
  refine ⟨?_, ?_, rfl⟩
  · intro p
    simp [handleDelete, List.mem_filter]
  · exact List.filter_sublist products

/-! ## Photo reconciliation (C4, C10) -/

def demoPhotoB1 : ProductPhoto :=
  { id := "phB1", photo_url := "u/b1.png", product_id := some "prodB" }

/-- The stored photo table for the reconciliation scenarios: two rows of
product `prodA` and one row of product `prodB`. -/
def demoTable : List ProductPhoto := [demoPhotoA1, demoPhotoA2, demoPhotoB1]

/-- The form photo list of the edit scenario before removal: the two
fetched photos of `prodA`. -/
def demoFormPhotos : List FormPhoto :=
  [ { id := some "phA1", url := "u/a1.png", isNew := false, hasFile := false },
    { id := some "phA2", url := "u/a2.png", isNew := false, hasFile := false } ]

theorem reconcile_mem (productId : String) (ids : List String) (table : List ProductPhoto)
    (hsent : ∀ r ∈ table, r.id ≠ "-1") (r : ProductPhoto) :
    r ∈ reconcileDelete productId ids table ↔
      r ∈ table ∧ (r.product_id = some productId → r.id ∈ ids) := by
  unfold reconcileDelete
  rw [List.mem_filter]
  refine and_congr_right fun hr => ?_
  have hid : r.id ≠ "-1" := hsent r hr
  cases hids : ids.isEmpty with
  | true =>
    have hnil : ids = [] := List.isEmpty_iff.mp hids
    subst hnil
    have hc : (["-1"].contains r.id) = false := by
      simp [contains_iff_mem, hid]
    simp [hids, hc]
    exact fun h => absurd h hid
  | false =>
    simp [hids, contains_iff_mem, imp_iff_not_or]

/-- C4: a successful edit-mode submission deletes from the photo table
exactly the records of the edited product whose ids are not among the
retained (non-new, truthy-id) form photos; every other record survives.
The hypothesis excludes the sentinel id "-1", which no stored record
carries. -/
theorem reconcile_deletes_exactly (productId : String) (photos : List FormPhoto)
    (table : List ProductPhoto) (hsent : ∀ r ∈ table, r.id ≠ "-1") (r : ProductPhoto) :
    r ∈ reconcileDelete productId (currentPhotoIds photos) table ↔
      r ∈ table ∧ (r.product_id = some productId → r.id ∈ currentPhotoIds photos) :=
  reconcile_mem productId (currentPhotoIds photos) table hsent r

/-- C4 witness: editing `prodA`, which has two stored photos, removing the
second form photo and submitting leaves exactly the retained record
`phA1` for `prodA` (the record of the other product untouched), and the
removed record `phA2` is gone, as the theorem states. -/
theorem reconcile_deletes_exactly_witness :
    reconcileDelete "prodA" (currentPhotoIds (removePhoto 1 demoFormPhotos)) demoTable =
      [demoPhotoA1, demoPhotoB1] ∧
    (demoPhotoA2 ∈ reconcileDelete "prodA" (currentPhotoIds (removePhoto 1 demoFormPhotos))
        demoTable ↔
      demoPhotoA2 ∈ demoTable ∧
        (demoPhotoA2.product_id = some "prodA" →
          demoPhotoA2.id ∈ currentPhotoIds (removePhoto 1 demoFormPhotos))) :=
  ⟨by decide,
   reconcile_deletes_exactly "prodA" (removePhoto 1 demoFormPhotos) demoTable
     (by decide) demoPhotoA2⟩

/-- C10: the reconciliation delete is always filtered by the edited
product id, so records of every other product survive any submission; and
with no retained photo the sentinel list containing "-1" makes the delete
remove exactly the records of the edited product (no stored record has id
"-1"). -/
theorem reconcile_frame_sentinel (productId : String) (ids : List String)
    (table : List ProductPhoto) (hsent : ∀ r ∈ table, r.id ≠ "-1") :
    (∀ r ∈ table, r.product_id ≠ some productId →
      r ∈ reconcileDelete productId ids table) ∧
    (ids = [] → ∀ r ∈ table,
      (r ∈ reconcileDelete productId ids table ↔ r.product_id ≠ some productId)) := by
  constructor
  · intro r hr hne
    exact (reconcile_mem productId ids table hsent r).mpr ⟨hr, fun h => absurd h hne⟩
  · rintro rfl r hr
    rw [reconcile_mem productId [] table hsent r]
    simp [hr]

/-- C10 witness: with no retained photo, the record of the other product
survives and the records of the edited product are exactly the deleted
ones. -/
theorem reconcile_frame_sentinel_witness :
    demoPhotoB1 ∈ reconcileDelete "prodA" [] demoTable ∧
    (demoPhotoA1 ∈ reconcileDelete "prodA" [] demoTable ↔
      demoPhotoA1.product_id ≠ some "prodA") :=
  ⟨(reconcile_frame_sentinel "prodA" [] demoTable (by decide)).1 demoPhotoB1
     (by decide) (by decide),
   (reconcile_frame_sentinel "prodA" [] demoTable (by decide)).2 rfl demoPhotoA1 (by decide)⟩

/-! ## Form submission numeric fields (C5) -/

def demoUser : AuthUser := { id := "u1", email := some "vendor@example.com" }

/-- The claim scenario: a form with only the name filled in. -/
def demoNameOnlyForm : ProductForm :=
  { name := "Test Widget", description := "", category := "", sku := "", mrp := "",
    discount := "", expiry := "", manufactured_by := "", quantity := "",
    return_policy := "" }

/-- C5: a submission whose name field is non-empty passes the client-side
gate, and each numeric field whose text is empty or invalid (no parse) is
stored as absent, never as zero; the name is written through unchanged. -/
theorem submit_numeric_absent (u : AuthUser) (f : ProductForm)
    (hname : f.name ≠ "")
    (hmrp : f.mrp = "" ∨ jsParseFloat f.mrp = none)
    (hdiscount : f.discount = "" ∨ jsParseFloat f.discount = none) :
    clientAccepts (some u) f = true ∧
    (buildProductData u.id f).mrp = none ∧
    (buildProductData u.id f).discount = none ∧
    (buildProductData u.id f).mrp ≠ some 0 ∧
    (buildProductData u.id f).discount ≠ some 0 ∧
    (buildProductData u.id f).name = f.name := by
  have hm : parsedNumeric f.mrp = none := by
    rcases hmrp with h | h <;> simp [parsedNumeric, h]
  have hd : parsedNumeric f.discount = none := by
    rcases hdiscount with h | h <;> simp [parsedNumeric, h]
  refine ⟨?_, hm, hd, ?_, ?_, rfl⟩
  · simp [clientAccepts, hname]
  · show parsedNumeric f.mrp ≠ some 0
    rw [hm]
    simp
  · show parsedNumeric f.discount ≠ some 0
    rw [hd]
    simp

/-- C5 witness: submitting with only the name "Test Widget" passes the
gate and stores both numeric fields as absent. -/
theorem submit_numeric_absent_witness :
    clientAccepts (some demoUser) demoNameOnlyForm = true ∧
    (buildProductData demoUser.id demoNameOnlyForm).mrp = none ∧
    (buildProductData demoUser.id demoNameOnlyForm).discount = none ∧
    (buildProductData demoUser.id demoNameOnlyForm).mrp ≠ some 0 ∧
    (buildProductData demoUser.id demoNameOnlyForm).discount ≠ some 0 ∧
    (buildProductData demoUser.id demoNameOnlyForm).name = demoNameOnlyForm.name :=
  submit_numeric_absent demoUser demoNameOnlyForm (by decide) (Or.inl rfl) (Or.inl rfl)

/-! ## Route guard (C6) -/

/-- A run that loads with no user and then resolves to no user. -/
def demoTrace : List SessionState := [⟨none, true⟩, ⟨none, false⟩]

/-- C6: over any run of session states, the guard never redirects while
loading; it redirects at most once overall, and exactly once as soon as
some state has resolved with no user; and a resolved state with a user
renders the wrapped view with no redirect. -/
theorem guard_behaviour (t : List SessionState) :
    (∀ s ∈ t, s.loading = true → shouldRedirect s = false) ∧
    redirectCount t ≤ 1 ∧
    ((∃ s ∈ t, s.loading = false ∧ s.user = none) → redirectCount t = 1) ∧
    (∀ s : SessionState, s.loading = false → s.user.isSome = true →
      guardRender s = GuardView.wrapped ∧ shouldRedirect s = false) := by
  refine ⟨?_, ?_, ?_, ?_⟩
  · intro s _ hl
    simp [shouldRedirect, hl]
  · induction t with
    | nil => simp [redirectCount]
    | cons s rest ih =>
      cases hs : shouldRedirect s <;> simp [redirectCount, hs]
      exact ih
  · induction t with
    | nil =>
      rintro ⟨s, hs, _⟩
      exact absurd hs (List.not_mem_nil s)
    | cons s rest ih =>
      rintro ⟨x, hx, hxl, hxu⟩
      cases hs : shouldRedirect s
      · have hxr : x ∈ rest := by
          rcases List.mem_cons.mp hx with rfl | h
          · exfalso
            simp [shouldRedirect, hxl, hxu] at hs
          · exact h
        simpa [redirectCount, hs] using ih ⟨x, hxr, hxl, hxu⟩
      · simp [redirectCount, hs]
  · intro s hl hu
    rcases Option.isSome_iff_exists.mp hu with ⟨v, hv⟩
    exact ⟨by simp [guardRender, hl, hv], by simp [shouldRedirect, hl, hv]⟩

/-- C6 witness: the run that loads and then resolves with no user
redirects exactly once, and a resolved state with a user renders the
wrapped view. -/
theorem guard_behaviour_witness :
    redirectCount demoTrace = 1 ∧
    guardRender ⟨some "u1", false⟩ = GuardView.wrapped :=
  ⟨(guard_behaviour demoTrace).2.2.1 ⟨⟨none, false⟩, by decide, rfl, rfl⟩,
   ((guard_behaviour demoTrace).2.2.2 ⟨some "u1", false⟩ rfl rfl).1⟩

/-! ## Sequential photo uploads (C7) -/

def demoNewPhoto1 : FormPhoto := { id := none, url := "blob:1", isNew := true, hasFile := true }

def demoNewPhoto2 : FormPhoto := { id := none, url := "blob:2", isNew := true, hasFile := true }

def demoNewPhoto3 : FormPhoto := { id := none, url := "blob:3", isNew := true, hasFile := true }

/-- A submission photo list: one already stored photo and three new ones. -/
def demoSubmitPhotos : List FormPhoto :=
  [ { id := some "phA1", url := "u/a1.png", isNew := false, hasFile := false },
    demoNewPhoto1, demoNewPhoto2, demoNewPhoto3 ]

/-- An upload backend that accepts only the first upload. -/
def demoUploadOk : Nat → Bool := fun j => j == 0

theorem processUploads_spec (uploadOk : Nat → Bool) :
    ∀ (l : List FormPhoto) (k0 k : Nat),
      (∀ j, j < k → uploadOk (k0 + j) = true) →
      uploadOk (k0 + k) = false →
      k < l.length →
      processUploads uploadOk k0 l = ⟨List.take k l, k + 1, false⟩ := by
  intro l
  induction l with
  | nil =>
    intro k0 k _ _ hk
    exact absurd hk (Nat.not_lt_zero k)
  | cons p rest ih =>
    intro k0 k hbefore hfail hk
    cases k with
    | zero =>
      have h0 : uploadOk k0 = false := by simpa using hfail
      simp [processUploads, h0]
    | succ m =>
      have h0 : uploadOk k0 = true := by simpa using hbefore 0 (Nat.succ_pos m)
      have hrest := ih (k0 + 1) m
        (fun j hj => by
          have harith : k0 + 1 + j = k0 + (j + 1) := by omega
          rw [harith]
          exact hbefore (j + 1) (Nat.succ_lt_succ hj))
        (by
          have harith : k0 + 1 + m = k0 + (m + 1) := by omega
          rw [harith]
          exact hfail)
        (Nat.lt_of_succ_lt_succ (by simpa using hk))
      simp [processUploads, h0, hrest]

/-- C7: when the product write succeeds and the first failing upload is
the one with index `k` in the new-photo list, the submission commits
exactly the first `k` new photos, in list order, attempts exactly `k + 1`
uploads (so the uploads after index `k` are never attempted), reports
failure, and leaves the product write and the committed uploads in place. -/
theorem upload_failure_aborts (uploadOk : Nat → Bool) (photos : List FormPhoto) (k : Nat)
    (hbefore : ∀ j, j < k → uploadOk j = true)
    (hfail : uploadOk k = false)
    (hk : k < (newPhotosOf photos).length) :
    submitProduct true uploadOk photos =
      ⟨true, (newPhotosOf photos).take k, k + 1, false⟩ := by
  have h := processUploads_spec uploadOk (newPhotosOf photos) 0 k
    (fun j hj => by simpa using hbefore j hj)
    (by simpa using hfail) hk
  simp [submitProduct, h]

/-- C7 witness: with three new photos and a backend failing from the
second upload on, the submission keeps the product write and exactly the
first photo, having attempted two uploads. -/
theorem upload_failure_aborts_witness :
    submitProduct true demoUploadOk demoSubmitPhotos =
      ⟨true, (newPhotosOf demoSubmitPhotos).take 1, 1 + 1, false⟩ :=
  upload_failure_aborts demoUploadOk demoSubmitPhotos 1 (by decide) (by decide) (by decide)

/-! ## Admin access (C8) -/

/-- C8: for every signed-in user, the admin view grants access exactly
when the email contains the substring "admin"; the admin page redirect
fires exactly when access is denied; and the admin auth page sends a
signed-in user to the admin route exactly when access would be granted. -/
theorem admin_access_iff (u : AuthUser) :
    (adminPageGrantsAccess u = true ↔ ∃ e, u.email = some e ∧ "admin".data <:+: e.data) ∧
    (adminPageRedirectsAway u = true ↔ adminPageGrantsAccess u = false) ∧
    (adminAuthRedirect u = AuthRedirect.toAdmin ↔ adminPageGrantsAccess u = true) := by
  refine ⟨?_, ?_, ?_⟩
  · unfold adminPageGrantsAccess emailIncludesAdmin strIncludes
    rcases he : u.email with _ | e
    · simp
    · simp [decide_eq_true_iff]
  · unfold adminPageRedirectsAway adminPageGrantsAccess
    cases h : emailIncludesAdmin u.email <;> simp [h]
  · unfold adminAuthRedirect
    cases h : emailIncludesAdmin u.email <;> simp [adminPageGrantsAccess, h]

end Shopkeeper
